import Mathlib

/-!
Verification development for the Flow e-book reader's session/context core.

The definitions below are a shallow embedding of the TypeScript source:
- `src/main/services/database.ts` (persistence store: books, chat sessions,
  chat messages, settings, built on better-sqlite3),
- `src/main/services/geminiService.ts` (model gateway: prompt assembly and
  the Gemini request construction),
- `src/main/index.ts` (the `call-gemini` IPC handler), and
- `src/renderer/src/components/chat/ChatPanel.tsx` (`handleSendMessage`,
  the composite send operation).

Modelling conventions:
- String ids stand for the `crypto.randomUUID()` TEXT primary keys.
- Timestamps (`new Date().toISOString()` TEXT columns) are modelled as `Nat`:
  ISO-8601 UTC strings of this fixed shape compare lexicographically exactly
  as the instants they denote compare chronologically, and SQLite `ORDER BY`
  on the TEXT column is that lexicographic order.
- The store is modelled after `initDatabase` has run (the `if (!db)` guards
  of the source are the pre-init case and are outside the embedding).
- A SQL statement that raises (primary-key violation, foreign-key violation)
  is modelled as `Option`: `none` means the statement threw and changed
  nothing; better-sqlite3 statements are synchronous and autocommit.
- `foreignKeysEnabled` models the connection's SQLite `foreign_keys` state.
  The program opens its database through better-sqlite3, whose bundled
  SQLite is compiled with `SQLITE_DEFAULT_FOREIGN_KEYS=1`: foreign-key
  enforcement is ON for every connection without any pragma, so the
  program's states all carry the flag `true` and the schema's
  `ON DELETE CASCADE` clauses are enforced.  The flag is kept in the state
  (rather than hard-coded) so the definitions also describe a stock-SQLite
  connection, but every concrete store below uses `true`.
-/

/-- Embeds `role TEXT CHECK(role IN ('user','assistant'))` of `chat_messages`. -/
inductive Role where
  | user
  | assistant
deriving DecidableEq, Repr

/-- A row of the `books` table. -/
structure Book where
  id : String
  title : String
  author : String
  filePath : String
  coverPath : Option String
  fileType : String
  lastPage : Nat
  totalPages : Option Nat
  createdAt : Nat
  updatedAt : Nat
deriving DecidableEq, Repr

/-- A row of the `chat_sessions` table. -/
structure ChatSession where
  id : String
  bookId : String
  baseContext : String
  createdAt : Nat
  updatedAt : Nat
deriving DecidableEq, Repr

/-- A row of the `chat_messages` table. -/
structure ChatMessage where
  id : String
  sessionId : String
  role : Role
  message : String
  createdAt : Nat
deriving DecidableEq, Repr

/-- The whole SQLite store (`flow-reader.db`) plus the connection's
foreign-key pragma flag.  Row lists are kept in insertion (rowid) order. -/
structure DBState where
  books : List Book
  chatSessions : List ChatSession
  chatMessages : List ChatMessage
  settings : List (String × String)
  foreignKeysEnabled : Bool
deriving DecidableEq, Repr

/-- The store right after `initDatabase`: empty tables, and foreign-key
enforcement on (better-sqlite3's bundled SQLite is built with
`SQLITE_DEFAULT_FOREIGN_KEYS=1`, so enforcement holds with no pragma). -/
def initialState : DBState :=
  { books := []
    chatSessions := []
    chatMessages := []
    settings := []
    foreignKeysEnabled := true }

/-- Source `insertBook`: `INSERT INTO books ...`.  A duplicate primary key makes the
statement throw, leaving the store unchanged (`none`). -/
def insertBook (σ : DBState) (b : Book) : Option DBState :=
  if σ.books.any (fun x => decide (x.id = b.id)) then none
  else some { σ with books := σ.books ++ [b] }

/-- Source `updateBookProgress`: `UPDATE books SET last_page = ?, updated_at = ? WHERE id = ?`. -/
def updateBookProgress (σ : DBState) (id : String) (lastPage now : Nat) : DBState :=
  { σ with books := σ.books.map (fun b =>
      if b.id = id then { b with lastPage := lastPage, updatedAt := now } else b) }

/-- Source `deleteBookFromDb`: `DELETE FROM books WHERE id = ?`.  With
foreign keys enforced — the program's actual configuration — the schema's
`ON DELETE CASCADE` clauses remove the book's sessions and, transitively,
their messages; a connection without enforcement would remove only the
`books` row. -/
def deleteBookFromDb (σ : DBState) (id : String) : DBState :=
  let remaining := σ.books.filter (fun b => decide (¬ b.id = id))
  if σ.foreignKeysEnabled then
    let deadSessions := σ.chatSessions.filter (fun s => decide (s.bookId = id))
    { σ with
      books := remaining
      chatSessions := σ.chatSessions.filter (fun s => decide (¬ s.bookId = id))
      chatMessages := σ.chatMessages.filter (fun m =>
        decide (¬ (deadSessions.any (fun s => decide (s.id = m.sessionId))) = true)) }
  else
    { σ with books := remaining }

/-- Sort key of `getChatSessions`: `ORDER BY updated_at DESC`. -/
def sessionDescOrder (a b : ChatSession) : Prop := b.updatedAt ≤ a.updatedAt

instance : DecidableRel sessionDescOrder := fun a b => Nat.decLe b.updatedAt a.updatedAt

instance : IsTotal ChatSession sessionDescOrder :=
  ⟨fun a b => (Nat.le_total b.updatedAt a.updatedAt)⟩

instance : IsTrans ChatSession sessionDescOrder :=
  ⟨fun _ _ _ h1 h2 => Nat.le_trans h2 h1⟩

/-- Source `getChatSessions`: `SELECT ... FROM chat_sessions WHERE book_id = ?
ORDER BY updated_at DESC` (stable on ties, as the rowid scan yields). -/
def getChatSessions (σ : DBState) (bookId : String) : List ChatSession :=
  List.insertionSort sessionDescOrder
    (σ.chatSessions.filter (fun s => decide (s.bookId = bookId)))

/-- Source `getChatSession`: `SELECT ... FROM chat_sessions WHERE id = ?` (`stmt.get`). -/
def getChatSession (σ : DBState) (id : String) : Option ChatSession :=
  σ.chatSessions.find? (fun s => decide (s.id = id))

/-- Source `createChatSession`: inserts one `chat_sessions` row stamped
`created_at = updated_at = now` and returns the session object.  The source
performs no validation of `baseContext` whatsoever.  `none` models a throwing
statement (duplicate id, or a foreign-key violation when enforcement is on). -/
def createChatSession (σ : DBState) (id : String) (now : Nat) (bookId : String)
    (baseContext : String) : Option (DBState × ChatSession) :=
  if σ.chatSessions.any (fun s => decide (s.id = id)) then none
  else if σ.foreignKeysEnabled && !(σ.books.any (fun b => decide (b.id = bookId))) then none
  else
    let sess : ChatSession :=
      { id := id, bookId := bookId, baseContext := baseContext,
        createdAt := now, updatedAt := now }
    some ({ σ with chatSessions := σ.chatSessions ++ [sess] }, sess)

/-- Source `deleteChatSession`: `DELETE FROM chat_sessions WHERE id = ?`; the
`chat_messages` cascade fires only if the connection enforces foreign keys. -/
def deleteChatSession (σ : DBState) (id : String) : DBState :=
  let remaining := σ.chatSessions.filter (fun s => decide (¬ s.id = id))
  if σ.foreignKeysEnabled then
    { σ with
      chatSessions := remaining
      chatMessages := σ.chatMessages.filter (fun m => decide (¬ m.sessionId = id)) }
  else
    { σ with chatSessions := remaining }

/-- Sort key of `getChatMessages`: `ORDER BY created_at ASC`. -/
def messageAscOrder (a b : ChatMessage) : Prop := a.createdAt ≤ b.createdAt

instance : DecidableRel messageAscOrder := fun a b => Nat.decLe a.createdAt b.createdAt

instance : IsTotal ChatMessage messageAscOrder :=
  ⟨fun a b => Nat.le_total a.createdAt b.createdAt⟩

instance : IsTrans ChatMessage messageAscOrder :=
  ⟨fun _ _ _ h1 h2 => Nat.le_trans h1 h2⟩

/-- Source `getChatMessages`: `SELECT ... FROM chat_messages WHERE session_id = ?
ORDER BY created_at ASC` (stable on ties). -/
def getChatMessages (σ : DBState) (sessionId : String) : List ChatMessage :=
  List.insertionSort messageAscOrder
    (σ.chatMessages.filter (fun m => decide (m.sessionId = sessionId)))

/-- First statement of `addChatMessage`:
`INSERT INTO chat_messages (id, session_id, role, message, created_at) VALUES (?,?,?,?,?)`. -/
def insertChatMessageRow (σ : DBState) (id sessionId : String) (role : Role)
    (message : String) (now : Nat) : Option DBState :=
  if σ.chatMessages.any (fun m => decide (m.id = id)) then none
  else if σ.foreignKeysEnabled &&
      !(σ.chatSessions.any (fun s => decide (s.id = sessionId))) then none
  else some { σ with chatMessages := σ.chatMessages ++
      [{ id := id, sessionId := sessionId, role := role,
         message := message, createdAt := now }] }

/-- Second statement of `addChatMessage`:
`UPDATE chat_sessions SET updated_at = ? WHERE id = ?`. -/
def touchSession (σ : DBState) (sessionId : String) (now : Nat) : DBState :=
  { σ with chatSessions := σ.chatSessions.map (fun s =>
      if s.id = sessionId then { s with updatedAt := now } else s) }

/-- Source `addChatMessage`: runs the insert, then the session-timestamp update, and
returns the message object.  The source wraps the two statements in no
transaction (contrast `saveSettings`, which does use `db.transaction`). -/
def addChatMessage (σ : DBState) (id sessionId : String) (role : Role)
    (message : String) (now : Nat) : Option (DBState × ChatMessage) :=
  match insertChatMessageRow σ id sessionId role message now with
  | none => none
  | some σ1 =>
      some (touchSession σ1 sessionId now,
        { id := id, sessionId := sessionId, role := role,
          message := message, createdAt := now })

/-- The two SQL statements of `addChatMessage`, in source order, each as an
independently committed step (better-sqlite3 autocommits every statement run
outside an explicit transaction). -/
def addChatMessageStatements (id sessionId : String) (role : Role)
    (message : String) (now : Nat) : List (DBState → Option DBState) :=
  [fun σ => insertChatMessageRow σ id sessionId role message now,
   fun σ => some (touchSession σ sessionId now)]

/-- Runs the first `k` statements of a non-transactional statement list: the
durably committed outcome of an execution that stops (crash, or a throw from
the next statement) after `k` autocommitted statements. -/
def runStmtsUpTo : List (DBState → Option DBState) → Nat → DBState → Option DBState
  | _, 0, σ => some σ
  | [], _ + 1, σ => some σ
  | f :: fs, k + 1, σ =>
      match f σ with
      | none => none
      | some σ1 => runStmtsUpTo fs k σ1

/-- In-memory `Settings` object produced by `getSettings`. -/
structure SettingsRec where
  geminiApiKey : Option String
  theme : String
  model : String
deriving DecidableEq, Repr

/-- Source `getSettings`: folds the `settings` rows over the defaults
`{ theme: 'light', model: 'gemini-2.5-flash' }`; `geminiApiKey` starts absent. -/
def getSettings (σ : DBState) : SettingsRec :=
  σ.settings.foldl
    (fun acc row =>
      let acc1 := if row.1 = "geminiApiKey" then { acc with geminiApiKey := some row.2 } else acc
      let acc2 := if row.1 = "theme" then { acc1 with theme := row.2 } else acc1
      if row.1 = "model" then { acc2 with model := row.2 } else acc2)
    { geminiApiKey := none, theme := "light", model := "gemini-2.5-flash" }

/-- Source `saveSetting`: `INSERT OR REPLACE INTO settings (key, value) VALUES (?,?)`. -/
def saveSetting (σ : DBState) (key value : String) : DBState :=
  if σ.settings.any (fun r => decide (r.1 = key)) then
    { σ with settings := σ.settings.map (fun r => if r.1 = key then (key, value) else r) }
  else
    { σ with settings := σ.settings ++ [(key, value)] }

/-- Source `saveSettings`: a `db.transaction` over up to three `saveSetting` calls
(one per defined field of the partial settings object). -/
def saveSettings (σ : DBState) (geminiApiKey theme model : Option String) : DBState :=
  let σ1 := match geminiApiKey with
    | some v => saveSetting σ "geminiApiKey" v
    | none => σ
  let σ2 := match theme with
    | some v => saveSetting σ1 "theme" v
    | none => σ1
  match model with
  | some v => saveSetting σ2 "model" v
  | none => σ2

/-! ### Model gateway (`geminiService.ts`) -/

/-- Literal text of the first-turn template before the anchor block. -/
def promptIntro : String := "다음 텍스트를 기반으로 질문에 답해주세요.\n\n[선택된 텍스트]\n"

/-- Literal text of the first-turn template between anchor and question. -/
def promptQuestionSep : String := "\n\n[질문]\n"

/-- Literal text of the first-turn template after the question block. -/
def promptOutro : String := "\n\n답변을 한국어로 제공해주세요. 명확하고 이해하기 쉽게 설명해주세요."

/-- Source `buildPrompt`: the fixed template composing the anchor (`baseContext`)
with the user message — anchor block, separator, question block. -/
def buildPrompt (baseContext userMessage : String) : String :=
  promptIntro ++ baseContext ++ promptQuestionSep ++ userMessage ++ promptOutro

/-- JavaScript `String.prototype.trim()`: strips leading and trailing
whitespace.  Kept as an executable structural recursion over the character
list (Lean's own `String.trim` is well-founded-recursive and does not
evaluate inside `decide`). -/
def strTrim (s : String) : String :=
  String.mk (((s.data.dropWhile Char.isWhitespace).reverse.dropWhile
    Char.isWhitespace).reverse)

/-- One element of the `contents` array sent to the provider.  The source
always pushes a single-element `parts` array, collapsed here to its text. -/
structure GeminiEntry where
  role : String
  text : String
deriving DecidableEq, Repr

/-- Role tag mapping of the history loop:
`msg.role === 'user' ? 'user' : 'model'`. -/
def roleToGemini : Role → String
  | Role.user => "user"
  | Role.assistant => "model"

/-- The final-entry text:
`chatHistory.length === 0 ? buildPrompt(baseContext, userMessage) : userMessage`. -/
def selectedPrompt (baseContext userMessage : String)
    (chatHistory : List (Role × String)) : String :=
  if chatHistory.length = 0 then buildPrompt baseContext userMessage else userMessage

/-- The `contents` array assembled by `callGeminiAPI`: the chat history
verbatim (role-tagged), then one `user` entry with `selectedPrompt`. -/
def geminiContents (baseContext userMessage : String)
    (chatHistory : List (Role × String)) : List GeminiEntry :=
  chatHistory.map (fun m => { role := roleToGemini m.1, text := m.2 }) ++
    [{ role := "user", text := selectedPrompt baseContext userMessage chatHistory }]

/-- Local error kinds of the gateway (§7 taxonomy, gateway part). -/
inductive GeminiFailure where
  | notConfigured
  | providerError (msg : String)
  | emptyGeneration
  | transportError
deriving DecidableEq, Repr

/-- The request `callGeminiAPI` hands to `fetch`: model identifier and the
`contents` array (generation parameters and safety settings are fixed
constants in the source and carry no information). -/
structure GeminiRequest where
  model : String
  contents : List GeminiEntry
deriving DecidableEq, Repr

/-- JavaScript falsiness of the stored credential / model string:
`undefined` (absent row) or the empty string. -/
def strOptFalsy : Option String → Bool
  | none => true
  | some s => decide (s = "")

/-- The prefix of `callGeminiAPI` up to and including the construction of the
request body.  `!settings.geminiApiKey` throws before `fetch` is ever called;
`.ok` carries the one request that would then be sent over the network. -/
def callGeminiRequest (σ : DBState) (baseContext userMessage : String)
    (chatHistory : List (Role × String)) : Except GeminiFailure GeminiRequest :=
  let settings := getSettings σ
  if strOptFalsy settings.geminiApiKey then Except.error GeminiFailure.notConfigured
  else
    Except.ok
      { model := if strOptFalsy (some settings.model)
          then "gemini-2.5-flash-preview-05-20" else settings.model
        contents := geminiContents baseContext userMessage chatHistory }

/-- The network requests an outcome of `callGeminiRequest` causes: exactly the
`.ok` payload; an error produced before `fetch` sends nothing. -/
def attemptedRequests : Except GeminiFailure GeminiRequest → List GeminiRequest
  | Except.ok r => [r]
  | Except.error _ => []

/-! ### The `call-gemini` IPC handler (`src/main/index.ts`) -/

/-- The handler's pure core: look the session up, validate `baseContext`
(`!session.baseContext || session.baseContext.trim().length === 0`), re-read
the session's full message history, and assemble the provider `contents`.
Errors are the literal user-visible strings the handler throws. -/
def callGeminiHandlerContents (σ : DBState) (sessionId userMessage : String) :
    Except String (List GeminiEntry) :=
  match getChatSession σ sessionId with
  | none => Except.error "세션을 찾을 수 없습니다."
  | some session =>
      if session.baseContext = "" ∨ strTrim session.baseContext = "" then
        Except.error "선택된 텍스트가 없습니다. 텍스트를 선택한 후 다시 시도해주세요."
      else
        Except.ok (geminiContents session.baseContext userMessage
          ((getChatMessages σ sessionId).map (fun m => (m.role, m.message))))

/-! ### The composite send operation (`ChatPanel.handleSendMessage`) -/

/-- The `call-gemini` IPC result object `{ success, response?, error? }`. -/
structure CallGeminiResult where
  success : Bool
  response : Option String
  error : Option String
deriving DecidableEq, Repr

/-- Body of the synthetic assistant turn on failure:
`` `오류: ${result.error || '응답을 받지 못했습니다.'}` ``. -/
def errorTurnBody (error : Option String) : String :=
  "오류: " ++ (match error with
    | some e => if e = "" then "응답을 받지 못했습니다." else e
    | none => "응답을 받지 못했습니다.")

/-- Source `handleSendMessage` with the gateway outcome passed in (the network call
itself is external).  The trimmed input is appended as a durable `user`
message before the gateway call; on `result.success && result.response` the
reply is appended, otherwise the synthetic error turn is.  `none` models the
exception path in which a database statement itself threw. -/
def handleSendMessage (σ : DBState) (sessionId input : String)
    (result : CallGeminiResult) (userMsgId assistantMsgId : String)
    (t1 t2 : Nat) : Option DBState :=
  if strTrim input = "" then some σ
  else
    let userMessage := strTrim input
    match addChatMessage σ userMsgId sessionId Role.user userMessage t1 with
    | none => none
    | some (σ1, _) =>
        if result.success && !strOptFalsy result.response then
          match addChatMessage σ1 assistantMsgId sessionId Role.assistant
              (result.response.getD "") t2 with
          | none => none
          | some (σ2, _) => some σ2
        else
          match addChatMessage σ1 assistantMsgId sessionId Role.assistant
              (errorTurnBody result.error) t2 with
          | none => none
          | some (σ2, _) => some σ2

/-- The provider `contents` assembled in the end-to-end send flow: the
renderer appends the trimmed user message, then the `call-gemini` handler
re-reads the history from the store and assembles the request. -/
def sendFlowContents (σ : DBState) (sessionId input : String)
    (userMsgId : String) (t1 : Nat) : Option (List GeminiEntry) :=
  if strTrim input = "" then none
  else
    match addChatMessage σ userMsgId sessionId Role.user (strTrim input) t1 with
    | none => none
    | some (σ1, _) => (callGeminiHandlerContents σ1 sessionId (strTrim input)).toOption

/-! ### The public mutating interface, as one step type -/

/-- Every state-mutating operation exported by `database.ts` (the getters do
not write).  `opAddChatMessage` covers the combined insert-and-touch path. -/
inductive DbOp where
  | opInsertBook (b : Book)
  | opUpdateBookProgress (id : String) (lastPage now : Nat)
  | opDeleteBookFromDb (id : String)
  | opCreateChatSession (id : String) (now : Nat) (bookId baseContext : String)
  | opDeleteChatSession (id : String)
  | opAddChatMessage (id sessionId : String) (role : Role) (message : String) (now : Nat)
  | opSaveSetting (key value : String)
  | opSaveSettings (geminiApiKey theme model : Option String)

/-- Applying one operation; a throwing statement leaves the store unchanged
(the exception propagates to the caller, no partial write happens). -/
def applyOp (σ : DBState) : DbOp → DBState
  | DbOp.opInsertBook b => (insertBook σ b).getD σ
  | DbOp.opUpdateBookProgress id p now => updateBookProgress σ id p now
  | DbOp.opDeleteBookFromDb id => deleteBookFromDb σ id
  | DbOp.opCreateChatSession id now bid anchor =>
      match createChatSession σ id now bid anchor with
      | none => σ
      | some (σ1, _) => σ1
  | DbOp.opDeleteChatSession id => deleteChatSession σ id
  | DbOp.opAddChatMessage id sid role msg now =>
      match addChatMessage σ id sid role msg now with
      | none => σ
      | some (σ1, _) => σ1
  | DbOp.opSaveSetting k v => saveSetting σ k v
  | DbOp.opSaveSettings g t m => saveSettings σ g t m

/-- One appended turn of a session: message id, role, body, timestamp. -/
structure Turn where
  msgId : String
  role : Role
  message : String
  time : Nat

/-- Appending a sequence of turns to session `sid` through the public
`addChatMessage` operation. -/
def applyTurns (σ : DBState) (sid : String) (turns : List Turn) : DBState :=
  turns.foldl (fun σ t => applyOp σ (DbOp.opAddChatMessage t.msgId sid t.role t.message t.time)) σ

/-! ### Substring occurrence counting (for the anchor-injection claims) -/

/-- Whether `pat` occurs at the head of `s`. -/
def listStartsWith : List Char → List Char → Bool
  | [], _ => true
  | _ :: _, [] => false
  | p :: ps, c :: cs => p = c && listStartsWith ps cs

/-- The number of (start positions of) occurrences of `pat` in `s`. -/
def countSeg (pat : List Char) : List Char → Nat
  | [] => if listStartsWith pat [] then 1 else 0
  | c :: rest =>
      (if listStartsWith pat (c :: rest) then 1 else 0) + countSeg pat rest

/-- Total occurrences of the anchor across an assembled `contents` array. -/
def anchorOccurrences (anchor : String) (contents : List GeminiEntry) : Nat :=
  (contents.map (fun e => countSeg anchor.data e.text.data)).sum

/-! ### Concrete stores used by the evaluation theorems -/

/-- A book row as `importFile` + `insertBook` would create it. -/
def c4Book : Book :=
  { id := "b1", title := "Creative Evolution", author := "Bergson",
    filePath := "/books/ce.pdf", coverPath := none, fileType := "pdf",
    lastPage := 1, totalPages := some 100, createdAt := 0, updatedAt := 0 }

/-- A store reached from `initDatabase` (foreign keys enforced, as on every
better-sqlite3 connection) by importing one book, creating two chat sessions
on it, and appending one message to each session. -/
def c4State : DBState :=
  applyOp (applyOp (applyOp (applyOp (applyOp initialState
    (DbOp.opInsertBook c4Book))
    (DbOp.opCreateChatSession "s1" 1 "b1" "anchor one"))
    (DbOp.opCreateChatSession "s2" 2 "b1" "anchor two"))
    (DbOp.opAddChatMessage "m1" "s1" Role.user "q1" 3))
    (DbOp.opAddChatMessage "m2" "s2" Role.user "q2" 4)

/-- A store holding one imported book and one fresh session with no
messages yet. -/
def c5State : DBState :=
  { initialState with
    books := [c4Book]
    chatSessions :=
      [{ id := "s1", bookId := "b1", baseContext := "선택된 텍스트",
         createdAt := 5, updatedAt := 5 }] }

/-- A second book row, imported into the store the C3 theorems run over. -/
def c3Book : Book :=
  { id := "b1", title := "Matter and Memory", author := "Bergson",
    filePath := "/books/mm.pdf", coverPath := none, fileType := "pdf",
    lastPage := 1, totalPages := some 200, createdAt := 0, updatedAt := 0 }

/-- A store reached from `initDatabase` by importing one book — the state in
which the UI would go on to create a session for a text selection. -/
def c3State : DBState :=
  applyOp initialState (DbOp.opInsertBook c3Book)

/-- The anchor of the spec's worked scenario. -/
def c1Anchor : String :=
  "Bergson describes natural science as a partial view of becoming."

/-- The stored history after the scenario's first completed turn: the raw
first user message and the assistant reply, exactly as `addChatMessage`
persisted them (the composed first prompt is never stored). -/
def c1History : List (Role × String) :=
  [(Role.user, "이게 무슨 의미야?"), (Role.assistant, "이 문장은...")]

/-- C1: the claim says that for every non-empty history the assembled
sequence contains the anchor exactly once, inside a first entry recomposed
from the anchor and the original first user text.  Evaluating the source's
assembly on the spec's own second-turn scenario shows the opposite: the
history is replayed verbatim, the first entry is the raw first user message
(not the recomposition), and the anchor occurs zero times anywhere. -/
theorem anchor_not_resent_on_nonempty_history :
    geminiContents c1Anchor "좀 더 쉽게 설명해줘" c1History =
      [{ role := "user", text := "이게 무슨 의미야?" },
       { role := "model", text := "이 문장은..." },
       { role := "user", text := "좀 더 쉽게 설명해줘" }] ∧
    anchorOccurrences c1Anchor (geminiContents c1Anchor "좀 더 쉽게 설명해줘" c1History) = 0 ∧
    (geminiContents c1Anchor "좀 더 쉽게 설명해줘" c1History).head? =
      some { role := "user", text := "이게 무슨 의미야?" } ∧
    ¬ "이게 무슨 의미야?" = buildPrompt c1Anchor "이게 무슨 의미야?" := by
  decide

/-- C3 counterexample: in a store holding the referenced book (so the
foreign-key check of the enforced-by-default connection passes),
`createChatSession` applied to an empty (and to a whitespace-only) anchor
does not fail — it persists the row and returns the session, contrary to the
claimed `InvalidAnchor` rejection. -/
theorem createChatSession_accepts_empty_anchor :
    createChatSession c3State "s1" 7 "b1" "" =
      some ({ c3State with chatSessions :=
          [{ id := "s1", bookId := "b1", baseContext := "",
             createdAt := 7, updatedAt := 7 }] },
        { id := "s1", bookId := "b1", baseContext := "",
          createdAt := 7, updatedAt := 7 }) ∧
    createChatSession c3State "s2" 7 "b1" "   " =
      some ({ c3State with chatSessions :=
          [{ id := "s2", bookId := "b1", baseContext := "   ",
             createdAt := 7, updatedAt := 7 }] },
        { id := "s2", bookId := "b1", baseContext := "   ",
          createdAt := 7, updatedAt := 7 }) := by
  decide

/-- C4: with foreign keys enforced (better-sqlite3's default on every
connection), the schema's `ON DELETE CASCADE` clauses make the deletes
cascade.  General parts: deleting a book keeps exactly the sessions of other
books and exactly the messages not belonging to any of the deleted book's
sessions; deleting a session keeps exactly the other sessions and exactly
the messages of other sessions.  Concrete part: on a store with one book,
two sessions and one message each, deleting the book wipes all sessions and
messages, and deleting session s1 removes its message while leaving the
sibling session s2 and s2's message untouched. -/
theorem delete_cascades :
    (∀ (σ : DBState) (bid : String), σ.foreignKeysEnabled = true →
      (∀ s : ChatSession, s ∈ (deleteBookFromDb σ bid).chatSessions ↔
        (s ∈ σ.chatSessions ∧ ¬ s.bookId = bid)) ∧
      (∀ m : ChatMessage, m ∈ (deleteBookFromDb σ bid).chatMessages ↔
        (m ∈ σ.chatMessages ∧
          ∀ s ∈ σ.chatSessions, s.bookId = bid → ¬ s.id = m.sessionId)))
    ∧ (∀ (σ : DBState) (sid : String), σ.foreignKeysEnabled = true →
      (∀ s : ChatSession, s ∈ (deleteChatSession σ sid).chatSessions ↔
        (s ∈ σ.chatSessions ∧ ¬ s.id = sid)) ∧
      (∀ m : ChatMessage, m ∈ (deleteChatSession σ sid).chatMessages ↔
        (m ∈ σ.chatMessages ∧ ¬ m.sessionId = sid)))
    ∧ ((deleteBookFromDb c4State "b1").books = [] ∧
       (deleteBookFromDb c4State "b1").chatSessions = [] ∧
       (deleteBookFromDb c4State "b1").chatMessages = [] ∧
       ((deleteChatSession c4State "s1").chatSessions.map (fun s => s.id)) = ["s2"] ∧
       ((deleteChatSession c4State "s1").chatMessages.map (fun m => m.id)) = ["m2"] ∧
       c4State.foreignKeysEnabled = true) := by
  refine ⟨?_, ?_, by decide⟩
  · intro σ bid hfk
    constructor
    · intro s
      simp [deleteBookFromDb, hfk, List.mem_filter]
    · intro m
      simp [deleteBookFromDb, hfk, List.mem_filter, List.any_eq_true]
  · intro σ sid hfk
    constructor
    · intro s
      simp [deleteChatSession, hfk, List.mem_filter]
    · intro m
      simp [deleteChatSession, hfk, List.mem_filter]

/-- Witness for C4's general parts at the concrete store: after deleting the
book, session s1 is gone (its membership reduces to a false right side), and
after deleting session s1, the sibling's message m2 is kept. -/
theorem delete_cascades_witness :
    (({ id := "s1", bookId := "b1", baseContext := "anchor one",
        createdAt := 1, updatedAt := 3 } : ChatSession) ∈
        (deleteBookFromDb c4State "b1").chatSessions ↔
      (({ id := "s1", bookId := "b1", baseContext := "anchor one",
          createdAt := 1, updatedAt := 3 } : ChatSession) ∈ c4State.chatSessions ∧
        ¬ ({ id := "s1", bookId := "b1", baseContext := "anchor one",
             createdAt := 1, updatedAt := 3 } : ChatSession).bookId = "b1")) ∧
    (({ id := "m2", sessionId := "s2", role := Role.user, message := "q2",
        createdAt := 4 } : ChatMessage) ∈
        (deleteChatSession c4State "s1").chatMessages ↔
      (({ id := "m2", sessionId := "s2", role := Role.user, message := "q2",
          createdAt := 4 } : ChatMessage) ∈ c4State.chatMessages ∧
        ¬ ({ id := "m2", sessionId := "s2", role := Role.user, message := "q2",
             createdAt := 4 } : ChatMessage).sessionId = "s1")) :=
  ⟨(delete_cascades.1 c4State "b1" (by decide)).1
      { id := "s1", bookId := "b1", baseContext := "anchor one",
        createdAt := 1, updatedAt := 3 },
    (delete_cascades.2.1 c4State "s1" (by decide)).2
      { id := "m2", sessionId := "s2", role := Role.user, message := "q2",
        createdAt := 4 }⟩

/-- C5: the insert and the session-timestamp update of `addChatMessage` are
two independently committed statements.  Stopping after the first (the
committed outcome of a crash between them, or of the update throwing) leaves
the message durably inserted while the session's `updatedAt` still reads its
old value — the claimed both-or-neither atomicity does not hold.  The third
conjunct shows the uninterrupted run for contrast. -/
theorem addChatMessage_pair_not_atomic :
    runStmtsUpTo (addChatMessageStatements "m1" "s1" Role.user "이게 무슨 의미야?" 9) 1 c5State =
      some { c5State with chatMessages :=
        [{ id := "m1", sessionId := "s1", role := Role.user,
           message := "이게 무슨 의미야?", createdAt := 9 }] } ∧
    ((runStmtsUpTo (addChatMessageStatements "m1" "s1" Role.user "이게 무슨 의미야?" 9) 1
        c5State).bind (fun σ => getChatSession σ "s1")).map (fun s => s.updatedAt) =
      some 5 ∧
    ((addChatMessage c5State "m1" "s1" Role.user "이게 무슨 의미야?" 9).map
        (fun p => (getChatSession p.1 "s1").map (fun s => s.updatedAt))) =
      some (some 9) := by
  decide

/-! ### General lemmas about the store operations -/

/-- Lookup via `find?` over a map whose function leaves the searched predicate alone. -/
theorem find?_map_pred_inv {α : Type} {f : α → α} {p : α → Bool}
    (hp : ∀ a, p (f a) = p a) (l : List α) :
    (l.map f).find? p = (l.find? p).map f := by
  have hpf : p ∘ f = p := funext hp
  rw [List.find?_map, hpf]

/-- The session-timestamp update commutes with session lookup: the looked-up
row is the old one, touched iff it is the targeted session. -/
theorem getChatSession_touchSession (σ : DBState) (sid tid : String) (now : Nat) :
    getChatSession (touchSession σ sid now) tid =
      (getChatSession σ tid).map
        (fun s => if s.id = sid then { s with updatedAt := now } else s) := by
  unfold getChatSession touchSession
  exact find?_map_pred_inv (fun a => by by_cases h : a.id = sid <;> simp [h]) _

/-- The message insert succeeds whenever the message id is fresh and the
session row exists (so the foreign-key check, even if it were enforced,
passes), and it only appends to `chat_messages`. -/
theorem insertChatMessageRow_success (σ : DBState) (mid sid : String) (role : Role)
    (msg : String) (now : Nat)
    (hfresh : ∀ m ∈ σ.chatMessages, m.id ≠ mid)
    (hsess : ∃ s ∈ σ.chatSessions, s.id = sid) :
    insertChatMessageRow σ mid sid role msg now =
      some { σ with chatMessages := σ.chatMessages ++
        [{ id := mid, sessionId := sid, role := role, message := msg, createdAt := now }] } := by
  have h1 : (σ.chatMessages.any (fun m => decide (m.id = mid))) = false := by
    simp only [List.any_eq_false, decide_eq_true_eq]
    exact hfresh
  have h2 : (σ.chatSessions.any (fun s => decide (s.id = sid))) = true := by
    simp only [List.any_eq_true, decide_eq_true_eq]
    exact hsess
  unfold insertChatMessageRow
  rw [h1, h2]
  simp

/-- Specification of a successful `addChatMessage` run: the message row is
appended and the session's `updatedAt` is set, in that order. -/
theorem addChatMessage_success (σ : DBState) (mid sid : String) (role : Role)
    (msg : String) (now : Nat)
    (hfresh : ∀ m ∈ σ.chatMessages, m.id ≠ mid)
    (hsess : ∃ s ∈ σ.chatSessions, s.id = sid) :
    addChatMessage σ mid sid role msg now =
      some ({ σ with
          chatMessages := σ.chatMessages ++
            [{ id := mid, sessionId := sid, role := role, message := msg, createdAt := now }]
          chatSessions := σ.chatSessions.map
            (fun s => if s.id = sid then { s with updatedAt := now } else s) },
        { id := mid, sessionId := sid, role := role, message := msg, createdAt := now }) := by
  unfold addChatMessage
  rw [insertChatMessageRow_success σ mid sid role msg now hfresh hsess]
  rfl

/-- C6: on an empty history the assembled sequence is exactly one `user`
entry whose text is the fixed template around the anchor and the new user
text, in template order (anchor block first, question block after), so that
single entry contains both the anchor and the question. -/
theorem first_turn_single_anchor_entry (b q : String) :
    geminiContents b q [] = [{ role := "user", text := buildPrompt b q }] ∧
    buildPrompt b q =
      promptIntro ++ (b ++ (promptQuestionSep ++ (q ++ promptOutro))) ∧
    (∃ l r : String, buildPrompt b q = l ++ (b ++ r)) ∧
    (∃ l r : String, buildPrompt b q = l ++ (q ++ r)) := by
  refine ⟨by simp [geminiContents, selectedPrompt], ?_, ?_, ?_⟩
  · simp [buildPrompt, String.append_assoc]
  · exact ⟨promptIntro, promptQuestionSep ++ (q ++ promptOutro), by
      simp [buildPrompt, String.append_assoc]⟩
  · exact ⟨promptIntro ++ b ++ promptQuestionSep, promptOutro, by
      simp [buildPrompt, String.append_assoc]⟩

/-- C9: a missing or empty stored credential makes the gateway fail with the
not-configured error before the request object — the only thing ever handed
to `fetch` — is even constructed, so nothing is sent to the provider. -/
theorem notConfigured_before_any_request (σ : DBState)
    (baseContext userMessage : String) (chatHistory : List (Role × String))
    (hkey : (getSettings σ).geminiApiKey = none ∨ (getSettings σ).geminiApiKey = some "") :
    callGeminiRequest σ baseContext userMessage chatHistory =
      Except.error GeminiFailure.notConfigured ∧
    attemptedRequests (callGeminiRequest σ baseContext userMessage chatHistory) = [] := by
  have hfalsy : strOptFalsy (getSettings σ).geminiApiKey = true := by
    rcases hkey with h1 | h1 <;> simp [strOptFalsy, h1]
  have hmain : callGeminiRequest σ baseContext userMessage chatHistory =
      Except.error GeminiFailure.notConfigured := by
    unfold callGeminiRequest
    simp [hfalsy]
  exact ⟨hmain, by rw [hmain]; rfl⟩

/-- A store whose settings rows hold an empty credential. -/
def c9State : DBState :=
  { initialState with settings := [("geminiApiKey", ""), ("model", "gemini-2.5-flash")] }

/-- Witness for C9 at a concrete store with an empty stored key. -/
theorem notConfigured_before_any_request_witness :
    callGeminiRequest c9State "본문" "질문" [] =
      Except.error GeminiFailure.notConfigured ∧
    attemptedRequests (callGeminiRequest c9State "본문" "질문" []) = [] :=
  notConfigured_before_any_request c9State "본문" "질문" [] (Or.inr (by decide))

/-- A message insert never touches the `chat_sessions` table. -/
theorem insertChatMessageRow_sessions (σ σ1 : DBState) (mid sid : String)
    (role : Role) (msg : String) (now : Nat)
    (h : insertChatMessageRow σ mid sid role msg now = some σ1) :
    σ1.chatSessions = σ.chatSessions := by
  unfold insertChatMessageRow at h
  split at h
  · exact absurd h (by simp)
  · split at h
    · exact absurd h (by simp)
    · injection h with h1
      rw [← h1]

/-- The operation `saveSetting` never touches the `chat_sessions` table. -/
theorem saveSetting_sessions (σ : DBState) (k v : String) :
    (saveSetting σ k v).chatSessions = σ.chatSessions := by
  unfold saveSetting
  split <;> rfl

/-- The operation `saveSettings` never touches the `chat_sessions` table. -/
theorem saveSettings_sessions (σ : DBState) (g t m : Option String) :
    (saveSettings σ g t m).chatSessions = σ.chatSessions := by
  unfold saveSettings
  cases g <;> cases t <;> cases m <;> simp [saveSetting_sessions]


/-- Inversion of a successful message insert. -/
theorem insertChatMessageRow_inv (σ σins : DBState) (mid sid : String)
    (role : Role) (msg : String) (now : Nat)
    (h : insertChatMessageRow σ mid sid role msg now = some σins) :
    σins = { σ with chatMessages := σ.chatMessages ++
      [{ id := mid, sessionId := sid, role := role, message := msg, createdAt := now }] } := by
  unfold insertChatMessageRow at h
  split at h
  · exact absurd h (by simp)
  · split at h
    · exact absurd h (by simp)
    · injection h with h1
      exact h1.symm

/-- Inversion of a successful session creation. -/
theorem createChatSession_inv (σ σc : DBState) (sess : ChatSession) (id : String)
    (now : Nat) (bid anchor : String)
    (h : createChatSession σ id now bid anchor = some (σc, sess)) :
    σc = { σ with chatSessions := σ.chatSessions ++
        [{ id := id, bookId := bid, baseContext := anchor,
           createdAt := now, updatedAt := now }] } ∧
    sess = { id := id, bookId := bid, baseContext := anchor,
             createdAt := now, updatedAt := now } := by
  unfold createChatSession at h
  split at h
  · exact absurd h (by simp)
  · split at h
    · exact absurd h (by simp)
    · injection h with h1
      exact ⟨(congrArg Prod.fst h1).symm, (congrArg Prod.snd h1).symm⟩

/-- State shape after a successful `addChatMessage` run. -/
theorem addChatMessage_state (σ σ1 : DBState) (m : ChatMessage) (mid sid : String)
    (role : Role) (msg : String) (now : Nat)
    (h : addChatMessage σ mid sid role msg now = some (σ1, m)) :
    σ1.chatSessions = σ.chatSessions.map
      (fun s => if s.id = sid then { s with updatedAt := now } else s) ∧
    σ1.chatMessages = σ.chatMessages ++
      [{ id := mid, sessionId := sid, role := role, message := msg, createdAt := now }] := by
  unfold addChatMessage at h
  cases hi : insertChatMessageRow σ mid sid role msg now with
  | none =>
      rw [hi] at h
      exact absurd h (by simp)
  | some σins =>
      rw [hi] at h
      injection h with h1
      have hσ1 : σ1 = touchSession σins sid now := (congrArg Prod.fst h1).symm
      have hins := insertChatMessageRow_inv σ σins mid sid role msg now hi
      constructor
      · rw [hσ1]
        unfold touchSession
        rw [hins]
      · rw [hσ1]
        unfold touchSession
        rw [hins]

/-- Session lookup after a successful `addChatMessage` run: the prior row,
with `updatedAt` set iff it is the appended-to session. -/
theorem addChatMessage_getChatSession (σ σ1 : DBState) (m : ChatMessage)
    (mid sid tid : String) (role : Role) (msg : String) (now : Nat)
    (h : addChatMessage σ mid sid role msg now = some (σ1, m)) :
    getChatSession σ1 tid = (getChatSession σ tid).map
      (fun s => if s.id = sid then { s with updatedAt := now } else s) := by
  have hs := (addChatMessage_state σ σ1 m mid sid role msg now h).1
  unfold getChatSession
  rw [hs]
  exact find?_map_pred_inv (fun a => by by_cases hx : a.id = sid <;> simp [hx]) _

/-- Membership in the sessions table is only shrunk by the deletes. -/
theorem deleteBookFromDb_sessions_sub (σ : DBState) (id : String) (s2 : ChatSession)
    (h : s2 ∈ (deleteBookFromDb σ id).chatSessions) : s2 ∈ σ.chatSessions := by
  unfold deleteBookFromDb at h
  split at h
  · have h2 : s2 ∈ σ.chatSessions.filter (fun s => decide (¬ s.bookId = id)) := by
      simpa using h
    exact (List.mem_filter.mp h2).1
  · simpa using h

/-- Membership in the sessions table survives a session delete downward. -/
theorem deleteChatSession_sessions_sub (σ : DBState) (id : String) (s2 : ChatSession)
    (h : s2 ∈ (deleteChatSession σ id).chatSessions) : s2 ∈ σ.chatSessions := by
  unfold deleteChatSession at h
  split at h
  · have h2 : s2 ∈ σ.chatSessions.filter (fun s => decide (¬ s.id = id)) := by
      simpa using h
    exact (List.mem_filter.mp h2).1
  · have h2 : s2 ∈ σ.chatSessions ∧ ¬ s2.id = id := by simpa using h
    exact h2.1

/-- A book insert never touches the sessions table. -/
theorem insertBook_sessions (σ : DBState) (b : Book) :
    ((insertBook σ b).getD σ).chatSessions = σ.chatSessions := by
  unfold insertBook
  split <;> rfl

/-- C2: anchor immutability.  First part: after any operation of the public
mutating interface, every session row in the store either carries the id and
the unchanged `baseContext` of a row that already existed, or is the row
freshly inserted by that very `createChatSession` call, carrying exactly the
anchor passed at creation — no operation rewrites an existing session's
anchor.  Second part: after creating a session with a fresh id and then
appending any sequence of turns through the public append operation, the
`baseContext` read back is still the anchor supplied at creation. -/
theorem anchorText_immutable :
    (∀ (σ : DBState) (op : DbOp) (s2 : ChatSession),
        s2 ∈ (applyOp σ op).chatSessions →
        (∃ s1, s1 ∈ σ.chatSessions ∧ s1.id = s2.id ∧ s1.baseContext = s2.baseContext) ∨
        (∃ now bid, op = DbOp.opCreateChatSession s2.id now bid s2.baseContext))
    ∧ (∀ (σ σc : DBState) (sess : ChatSession) (id : String) (now : Nat)
          (bid anchor : String) (turns : List Turn),
        createChatSession σ id now bid anchor = some (σc, sess) →
        (∀ s ∈ σ.chatSessions, s.id ≠ id) →
        (getChatSession (applyTurns σc id turns) id).map (fun s => s.baseContext) =
          some anchor) := by
  constructor
  · intro σ op s2 hmem
    cases op with
    | opInsertBook b =>
        left
        rw [show applyOp σ (DbOp.opInsertBook b) = (insertBook σ b).getD σ from rfl,
          insertBook_sessions] at hmem
        exact ⟨s2, hmem, rfl, rfl⟩
    | opUpdateBookProgress id p now =>
        left
        exact ⟨s2, hmem, rfl, rfl⟩
    | opDeleteBookFromDb id =>
        left
        rw [show applyOp σ (DbOp.opDeleteBookFromDb id) = deleteBookFromDb σ id from rfl] at hmem
        exact ⟨s2, deleteBookFromDb_sessions_sub σ id s2 hmem, rfl, rfl⟩
    | opCreateChatSession id now bid anchor =>
        rw [show applyOp σ (DbOp.opCreateChatSession id now bid anchor) =
            (match createChatSession σ id now bid anchor with
             | none => σ
             | some (σ1, _) => σ1) from rfl] at hmem
        cases hc : createChatSession σ id now bid anchor with
        | none =>
            rw [hc] at hmem
            exact Or.inl ⟨s2, hmem, rfl, rfl⟩
        | some p =>
            obtain ⟨σ1, sessr⟩ := p
            rw [hc] at hmem
            have hσ1 := (createChatSession_inv σ σ1 sessr id now bid anchor hc).1
            rw [hσ1] at hmem
            rcases List.mem_append.mp hmem with h | h
            · exact Or.inl ⟨s2, h, rfl, rfl⟩
            · right
              have hs2 : s2 = { id := id, bookId := bid, baseContext := anchor,
                                createdAt := now, updatedAt := now } := by
                simpa using h
              rw [hs2]
              exact ⟨now, bid, rfl⟩
    | opDeleteChatSession id =>
        left
        rw [show applyOp σ (DbOp.opDeleteChatSession id) = deleteChatSession σ id from rfl] at hmem
        exact ⟨s2, deleteChatSession_sessions_sub σ id s2 hmem, rfl, rfl⟩
    | opAddChatMessage mid sid role msg now =>
        left
        rw [show applyOp σ (DbOp.opAddChatMessage mid sid role msg now) =
            (match addChatMessage σ mid sid role msg now with
             | none => σ
             | some (σ1, _) => σ1) from rfl] at hmem
        cases ha : addChatMessage σ mid sid role msg now with
        | none =>
            rw [ha] at hmem
            exact ⟨s2, hmem, rfl, rfl⟩
        | some p =>
            obtain ⟨σ1, m⟩ := p
            rw [ha] at hmem
            rw [(addChatMessage_state σ σ1 m mid sid role msg now ha).1] at hmem
            obtain ⟨s1, hs1, hf⟩ := List.mem_map.mp hmem
            refine ⟨s1, hs1, ?_, ?_⟩ <;>
              · rw [← hf]
                by_cases hid : s1.id = sid <;> simp [hid]
    | opSaveSetting k v =>
        left
        rw [show applyOp σ (DbOp.opSaveSetting k v) = saveSetting σ k v from rfl,
          saveSetting_sessions] at hmem
        exact ⟨s2, hmem, rfl, rfl⟩
    | opSaveSettings g t m =>
        left
        rw [show applyOp σ (DbOp.opSaveSettings g t m) = saveSettings σ g t m from rfl,
          saveSettings_sessions] at hmem
        exact ⟨s2, hmem, rfl, rfl⟩
  · intro σ σc sess id now bid anchor turns hc hfresh
    have hbase : (getChatSession σc id).map (fun s => s.baseContext) = some anchor := by
      have hσc := (createChatSession_inv σ σc sess id now bid anchor hc).1
      have hnone : σ.chatSessions.find? (fun s => decide (s.id = id)) = none := by
        rw [List.find?_eq_none]
        intro s hs
        simp [hfresh s hs]
      rw [hσc]
      unfold getChatSession
      simp [List.find?_append, hnone]
    have step : ∀ (σ0 : DBState) (t : Turn),
        (getChatSession σ0 id).map (fun s => s.baseContext) = some anchor →
        (getChatSession
          (applyOp σ0 (DbOp.opAddChatMessage t.msgId id t.role t.message t.time)) id).map
            (fun s => s.baseContext) = some anchor := by
      intro σ0 t h0
      rw [show applyOp σ0 (DbOp.opAddChatMessage t.msgId id t.role t.message t.time) =
          (match addChatMessage σ0 t.msgId id t.role t.message t.time with
           | none => σ0
           | some (σ1, _) => σ1) from rfl]
      cases ha : addChatMessage σ0 t.msgId id t.role t.message t.time with
      | none => exact h0
      | some p =>
          obtain ⟨σ1, m⟩ := p
          rw [addChatMessage_getChatSession σ0 σ1 m t.msgId id id t.role t.message t.time ha]
          cases hg : getChatSession σ0 id with
          | none =>
              rw [hg] at h0
              exact absurd h0 (by simp)
          | some s =>
              rw [hg] at h0
              simp only [Option.map_some'] at h0 ⊢
              by_cases hid : s.id = id <;> simp [hid, h0]
    have main : ∀ (ts : List Turn) (σ0 : DBState),
        (getChatSession σ0 id).map (fun s => s.baseContext) = some anchor →
        (getChatSession (applyTurns σ0 id ts) id).map (fun s => s.baseContext) =
          some anchor := by
      intro ts
      induction ts with
      | nil => intro σ0 h0; exact h0
      | cons t ts ih =>
          intro σ0 h0
          exact ih _ (step σ0 t h0)
    exact main turns σc hbase

/-- Witness for C2 at concrete stores: a touch via `addChatMessage` preserves
an existing session's anchor, and an anchor written at creation is read back
unchanged after two appended turns. -/
theorem anchorText_immutable_witness :
    ((∃ s1, s1 ∈ c5State.chatSessions ∧
        s1.id = ({ id := "s1", bookId := "b1", baseContext := "선택된 텍스트",
                   createdAt := 5, updatedAt := 9 } : ChatSession).id ∧
        s1.baseContext = ({ id := "s1", bookId := "b1", baseContext := "선택된 텍스트",
                            createdAt := 5, updatedAt := 9 } : ChatSession).baseContext) ∨
      (∃ now bid, DbOp.opAddChatMessage "m1" "s1" Role.user "질문" 9 =
        DbOp.opCreateChatSession "s1" now bid "선택된 텍스트"))
    ∧ (getChatSession
        (applyTurns
          { c3State with chatSessions :=
              [{ id := "s1", bookId := "b1", baseContext := "앵커 텍스트",
                 createdAt := 3, updatedAt := 3 }] }
          "s1"
          [{ msgId := "m1", role := Role.user, message := "질문", time := 4 },
           { msgId := "m2", role := Role.assistant, message := "답변", time := 5 }])
        "s1").map (fun s => s.baseContext) = some "앵커 텍스트" := by
  constructor
  · exact anchorText_immutable.1 c5State
      (DbOp.opAddChatMessage "m1" "s1" Role.user "질문" 9)
      { id := "s1", bookId := "b1", baseContext := "선택된 텍스트",
        createdAt := 5, updatedAt := 9 }
      (by decide)
  · exact anchorText_immutable.2 c3State
      { c3State with chatSessions :=
          [{ id := "s1", bookId := "b1", baseContext := "앵커 텍스트",
             createdAt := 3, updatedAt := 3 }] }
      { id := "s1", bookId := "b1", baseContext := "앵커 텍스트",
        createdAt := 3, updatedAt := 3 }
      "s1" 3 "b1" "앵커 텍스트"
      [{ msgId := "m1", role := Role.user, message := "질문", time := 4 },
       { msgId := "m2", role := Role.assistant, message := "답변", time := 5 }]
      (by decide) (by decide)

/-- With a fresh id, and either the referenced book present (the relevant
case on the enforced-by-default connection) or enforcement off,
`createChatSession` always succeeds and persists the row — whatever the
anchor text is. -/
theorem createChatSession_success (σ : DBState) (id : String) (now : Nat)
    (bid anchor : String)
    (hfresh : ∀ s ∈ σ.chatSessions, s.id ≠ id)
    (hok : σ.foreignKeysEnabled = false ∨ ∃ b ∈ σ.books, b.id = bid) :
    createChatSession σ id now bid anchor =
      some ({ σ with chatSessions := σ.chatSessions ++
          [{ id := id, bookId := bid, baseContext := anchor,
             createdAt := now, updatedAt := now }] },
        { id := id, bookId := bid, baseContext := anchor,
          createdAt := now, updatedAt := now }) := by
  have hany : (σ.chatSessions.any fun s => decide (s.id = id)) = false := by
    simp only [List.any_eq_false, decide_eq_true_eq]
    exact hfresh
  have hguard : (σ.foreignKeysEnabled && !(σ.books.any fun b => decide (b.id = bid))) =
      false := by
    rcases hok with h | h
    · rw [h]
      rfl
    · have hb : (σ.books.any fun b => decide (b.id = bid)) = true := by
        simp only [List.any_eq_true, decide_eq_true_eq]
        exact h
      rw [hb]
      simp
  unfold createChatSession
  rw [hany, hguard]
  simp

/-- C3 (amended): session creation performs no anchor validation at all — it
persists a row with the given `baseContext` verbatim, empty or whitespace-only
included, and returns the session.  The empty-anchor condition is instead
rejected later, at gateway-call time, where the `call-gemini` handler fails
with its user-visible error before assembling any request. -/
theorem createChatSession_unvalidated_persists :
    (∀ (σ : DBState) (id : String) (now : Nat) (bid anchor : String),
        (∀ s ∈ σ.chatSessions, s.id ≠ id) →
        (∃ b ∈ σ.books, b.id = bid) →
        createChatSession σ id now bid anchor =
          some ({ σ with chatSessions := σ.chatSessions ++
              [{ id := id, bookId := bid, baseContext := anchor,
                 createdAt := now, updatedAt := now }] },
            { id := id, bookId := bid, baseContext := anchor,
              createdAt := now, updatedAt := now }))
    ∧ (∀ (σ : DBState) (sid q : String) (s : ChatSession),
        getChatSession σ sid = some s →
        strTrim s.baseContext = "" →
        callGeminiHandlerContents σ sid q =
          Except.error "선택된 텍스트가 없습니다. 텍스트를 선택한 후 다시 시도해주세요.") := by
  constructor
  · intro σ id now bid anchor hfresh hbook
    exact createChatSession_success σ id now bid anchor hfresh (Or.inr hbook)
  · intro σ sid q s hget htrim
    unfold callGeminiHandlerContents
    simp only [hget]
    rw [if_pos (Or.inr htrim)]

/-- Witness for the amended C3: in a store holding the referenced book, a
whitespace-only anchor is persisted at creation, and the very same session
is then rejected at gateway-call time. -/
theorem createChatSession_unvalidated_persists_witness :
    createChatSession c3State "s1" 7 "b1" "   " =
      some ({ c3State with chatSessions :=
          [{ id := "s1", bookId := "b1", baseContext := "   ",
             createdAt := 7, updatedAt := 7 }] },
        { id := "s1", bookId := "b1", baseContext := "   ",
          createdAt := 7, updatedAt := 7 }) ∧
    callGeminiHandlerContents
      { c3State with chatSessions :=
          [{ id := "s1", bookId := "b1", baseContext := "   ",
             createdAt := 7, updatedAt := 7 }] }
      "s1" "이게 무슨 의미야?" =
      Except.error "선택된 텍스트가 없습니다. 텍스트를 선택한 후 다시 시도해주세요." := by
  constructor
  · have h := createChatSession_unvalidated_persists.1 c3State "s1" 7 "b1" "   "
      (by decide) (by decide)
    simpa using h
  · exact createChatSession_unvalidated_persists.2
      { c3State with chatSessions :=
          [{ id := "s1", bookId := "b1", baseContext := "   ",
             createdAt := 7, updatedAt := 7 }] }
      "s1" "이게 무슨 의미야?"
      { id := "s1", bookId := "b1", baseContext := "   ",
        createdAt := 7, updatedAt := 7 }
      (by decide) (by decide)

/-- C7: session listing and recency.  First part: for every store and book,
`getChatSessions` returns exactly the book's session rows (a permutation of
the filtered table) sorted by `updatedAt` descending.  Second part: a
successful `addChatMessage` sets the session's `updatedAt` to the append
timestamp.  Third part: importing a book, creating session A, then session
B, then appending a message to A (with timestamps advancing) makes the
listing return A before B. -/
theorem getChatSessions_sorted_recency :
    (∀ (σ : DBState) (bid : String),
        List.Sorted sessionDescOrder (getChatSessions σ bid) ∧
        List.Perm (getChatSessions σ bid)
          (σ.chatSessions.filter (fun s => decide (s.bookId = bid))))
    ∧ (∀ (σ σ1 : DBState) (m : ChatMessage) (mid sid : String) (role : Role)
          (msg : String) (now : Nat) (s : ChatSession),
        addChatMessage σ mid sid role msg now = some (σ1, m) →
        getChatSession σ sid = some s →
        getChatSession σ1 sid = some { s with updatedAt := now })
    ∧ (∀ (bk : Book) (bid anchorA anchorB idA idB mid msg : String) (t1 t2 t3 : Nat),
        bk.id = bid → idA ≠ idB → t2 < t3 →
        getChatSessions
          (applyOp (applyOp (applyOp (applyOp initialState
              (DbOp.opInsertBook bk))
              (DbOp.opCreateChatSession idA t1 bid anchorA))
              (DbOp.opCreateChatSession idB t2 bid anchorB))
              (DbOp.opAddChatMessage mid idA Role.user msg t3)) bid =
          [{ id := idA, bookId := bid, baseContext := anchorA,
             createdAt := t1, updatedAt := t3 },
           { id := idB, bookId := bid, baseContext := anchorB,
             createdAt := t2, updatedAt := t2 }]) := by
  refine ⟨?_, ?_, ?_⟩
  · intro σ bid
    exact ⟨List.sorted_insertionSort sessionDescOrder _,
      List.perm_insertionSort sessionDescOrder _⟩
  · intro σ σ1 m mid sid role msg now s ha hs
    rw [addChatMessage_getChatSession σ σ1 m mid sid sid role msg now ha, hs]
    have hs2 : σ.chatSessions.find? (fun x => decide (x.id = sid)) = some s := hs
    have hid : s.id = sid := by
      have hp := List.find?_some hs2
      simpa using hp
    simp [hid]
  · intro bk bid anchorA anchorB idA idB mid msg t1 t2 t3 hbk hAB h23
    have hBA : idB ≠ idA := Ne.symm hAB
    have h0 : applyOp initialState (DbOp.opInsertBook bk) =
        { initialState with books := [bk] } := rfl
    have hbmem : ∃ b ∈ ({ initialState with books := [bk] } : DBState).books,
        b.id = bid := ⟨bk, by simp, hbk⟩
    have h1 : applyOp { initialState with books := [bk] }
        (DbOp.opCreateChatSession idA t1 bid anchorA) =
        { initialState with
          books := [bk]
          chatSessions :=
            [{ id := idA, bookId := bid, baseContext := anchorA,
               createdAt := t1, updatedAt := t1 }] } := by
      have hc := createChatSession_success { initialState with books := [bk] }
        idA t1 bid anchorA
        (by intro s hs; exact absurd hs (List.not_mem_nil s))
        (Or.inr hbmem)
      rw [show applyOp { initialState with books := [bk] }
          (DbOp.opCreateChatSession idA t1 bid anchorA) =
          (match createChatSession { initialState with books := [bk] }
              idA t1 bid anchorA with
           | none => { initialState with books := [bk] }
           | some (σ1, _) => σ1) from rfl, hc]
      rfl
    have hbmem2 : ∃ b ∈ ({ initialState with
        books := [bk]
        chatSessions :=
          [{ id := idA, bookId := bid, baseContext := anchorA,
             createdAt := t1, updatedAt := t1 }] } : DBState).books,
        b.id = bid := ⟨bk, by simp, hbk⟩
    have h2 : applyOp { initialState with
          books := [bk]
          chatSessions :=
            [{ id := idA, bookId := bid, baseContext := anchorA,
               createdAt := t1, updatedAt := t1 }] }
        (DbOp.opCreateChatSession idB t2 bid anchorB) =
        { initialState with
          books := [bk]
          chatSessions :=
            [{ id := idA, bookId := bid, baseContext := anchorA,
               createdAt := t1, updatedAt := t1 },
             { id := idB, bookId := bid, baseContext := anchorB,
               createdAt := t2, updatedAt := t2 }] } := by
      have hc := createChatSession_success
        { initialState with
          books := [bk]
          chatSessions :=
            [{ id := idA, bookId := bid, baseContext := anchorA,
               createdAt := t1, updatedAt := t1 }] }
        idB t2 bid anchorB
        (by
          intro s hs
          have hsA : s = { id := idA, bookId := bid, baseContext := anchorA,
                           createdAt := t1, updatedAt := t1 } := by simpa using hs
          rw [hsA]
          exact hAB)
        (Or.inr hbmem2)
      rw [show applyOp { initialState with
            books := [bk]
            chatSessions :=
              [{ id := idA, bookId := bid, baseContext := anchorA,
                 createdAt := t1, updatedAt := t1 }] }
          (DbOp.opCreateChatSession idB t2 bid anchorB) =
          (match createChatSession { initialState with
              books := [bk]
              chatSessions :=
                [{ id := idA, bookId := bid, baseContext := anchorA,
                   createdAt := t1, updatedAt := t1 }] } idB t2 bid anchorB with
           | none => { initialState with
              books := [bk]
              chatSessions :=
                [{ id := idA, bookId := bid, baseContext := anchorA,
                   createdAt := t1, updatedAt := t1 }] }
           | some (σ1, _) => σ1) from rfl, hc]
      rfl
    have h3 : applyOp { initialState with
          books := [bk]
          chatSessions :=
            [{ id := idA, bookId := bid, baseContext := anchorA,
               createdAt := t1, updatedAt := t1 },
             { id := idB, bookId := bid, baseContext := anchorB,
               createdAt := t2, updatedAt := t2 }] }
        (DbOp.opAddChatMessage mid idA Role.user msg t3) =
        { initialState with
          books := [bk]
          chatSessions :=
            [{ id := idA, bookId := bid, baseContext := anchorA,
               createdAt := t1, updatedAt := t3 },
             { id := idB, bookId := bid, baseContext := anchorB,
               createdAt := t2, updatedAt := t2 }]
          chatMessages :=
            [{ id := mid, sessionId := idA, role := Role.user,
               message := msg, createdAt := t3 }] } := by
      have ha := addChatMessage_success
        { initialState with
          books := [bk]
          chatSessions :=
            [{ id := idA, bookId := bid, baseContext := anchorA,
               createdAt := t1, updatedAt := t1 },
             { id := idB, bookId := bid, baseContext := anchorB,
               createdAt := t2, updatedAt := t2 }] }
        mid idA Role.user msg t3
        (by intro m hm; exact absurd hm (List.not_mem_nil m))
        ⟨{ id := idA, bookId := bid, baseContext := anchorA,
           createdAt := t1, updatedAt := t1 }, by simp, rfl⟩
      rw [show applyOp { initialState with
            books := [bk]
            chatSessions :=
              [{ id := idA, bookId := bid, baseContext := anchorA,
                 createdAt := t1, updatedAt := t1 },
               { id := idB, bookId := bid, baseContext := anchorB,
                 createdAt := t2, updatedAt := t2 }] }
          (DbOp.opAddChatMessage mid idA Role.user msg t3) =
          (match addChatMessage { initialState with
              books := [bk]
              chatSessions :=
                [{ id := idA, bookId := bid, baseContext := anchorA,
                   createdAt := t1, updatedAt := t1 },
                 { id := idB, bookId := bid, baseContext := anchorB,
                   createdAt := t2, updatedAt := t2 }] } mid idA Role.user msg t3 with
           | none => { initialState with
              books := [bk]
              chatSessions :=
                [{ id := idA, bookId := bid, baseContext := anchorA,
                   createdAt := t1, updatedAt := t1 },
                 { id := idB, bookId := bid, baseContext := anchorB,
                   createdAt := t2, updatedAt := t2 }] }
           | some (σ1, _) => σ1) from rfl, ha]
      simp [hBA, initialState]
    rw [h0, h1, h2, h3]
    unfold getChatSessions
    simp [List.insertionSort, List.orderedInsert, sessionDescOrder, le_of_lt h23,
      initialState]

/-- Witness for C7 at concrete stores: the listing of `c4State` is sorted and
complete, a concrete append touches the session to the append time, and the
import-book/create-A/create-B/touch-A scenario lists A before B. -/
theorem getChatSessions_sorted_recency_witness :
    (List.Sorted sessionDescOrder (getChatSessions c4State "b1") ∧
      List.Perm (getChatSessions c4State "b1")
        (c4State.chatSessions.filter (fun s => decide (s.bookId = "b1")))) ∧
    getChatSession
      { c5State with
        chatSessions :=
          [{ id := "s1", bookId := "b1", baseContext := "선택된 텍스트",
             createdAt := 5, updatedAt := 9 }]
        chatMessages :=
          [{ id := "m1", sessionId := "s1", role := Role.user,
             message := "hello", createdAt := 9 }] } "s1" =
      some { id := "s1", bookId := "b1", baseContext := "선택된 텍스트",
             createdAt := 5, updatedAt := 9 } ∧
    getChatSessions
      (applyOp (applyOp (applyOp (applyOp initialState
          (DbOp.opInsertBook c4Book))
          (DbOp.opCreateChatSession "sA" 1 "b1" "anchor A"))
          (DbOp.opCreateChatSession "sB" 2 "b1" "anchor B"))
          (DbOp.opAddChatMessage "m1" "sA" Role.user "질문" 3)) "b1" =
      [{ id := "sA", bookId := "b1", baseContext := "anchor A",
         createdAt := 1, updatedAt := 3 },
       { id := "sB", bookId := "b1", baseContext := "anchor B",
         createdAt := 2, updatedAt := 2 }] := by
  refine ⟨getChatSessions_sorted_recency.1 c4State "b1", ?_, ?_⟩
  · exact getChatSessions_sorted_recency.2.1 c5State
      { c5State with
        chatSessions :=
          [{ id := "s1", bookId := "b1", baseContext := "선택된 텍스트",
             createdAt := 5, updatedAt := 9 }]
        chatMessages :=
          [{ id := "m1", sessionId := "s1", role := Role.user,
             message := "hello", createdAt := 9 }] }
      { id := "m1", sessionId := "s1", role := Role.user,
        message := "hello", createdAt := 9 }
      "m1" "s1" Role.user "hello" 9
      { id := "s1", bookId := "b1", baseContext := "선택된 텍스트",
        createdAt := 5, updatedAt := 5 }
      (by decide) (by decide)
  · exact getChatSessions_sorted_recency.2.2 c4Book "b1" "anchor A" "anchor B"
      "sA" "sB" "m1" "질문" 1 2 3 (by decide) (by decide) (by decide)

/-- C8: when the gateway call fails, `handleSendMessage` leaves the user's
message durably appended (written before the gateway call, never rolled
back), appends no normal reply, appends exactly one `assistant` turn whose
body is the user-visible error string carrying the failure message, and the
session's `updatedAt` still advances to the second append's timestamp. -/
theorem send_failure_appends_error_turn
    (σ : DBState) (sid input err uid aid : String) (t1 t2 : Nat) (s : ChatSession)
    (hinput : ¬ strTrim input = "")
    (herr : ¬ err = "")
    (hsess : getChatSession σ sid = some s)
    (hfreshU : ∀ m ∈ σ.chatMessages, m.id ≠ uid)
    (hfreshA : ∀ m ∈ σ.chatMessages, m.id ≠ aid)
    (hUA : uid ≠ aid)
    (ht1 : s.updatedAt < t1)
    (ht2 : t1 ≤ t2) :
    handleSendMessage σ sid input
        { success := false, response := none, error := some err } uid aid t1 t2 =
      some { σ with
        chatMessages := σ.chatMessages ++
          [{ id := uid, sessionId := sid, role := Role.user,
             message := strTrim input, createdAt := t1 },
           { id := aid, sessionId := sid, role := Role.assistant,
             message := "오류: " ++ err, createdAt := t2 }]
        chatSessions := σ.chatSessions.map
          (fun x => if x.id = sid then { x with updatedAt := t2 } else x) } ∧
    getChatSession
      { σ with
        chatMessages := σ.chatMessages ++
          [{ id := uid, sessionId := sid, role := Role.user,
             message := strTrim input, createdAt := t1 },
           { id := aid, sessionId := sid, role := Role.assistant,
             message := "오류: " ++ err, createdAt := t2 }]
        chatSessions := σ.chatSessions.map
          (fun x => if x.id = sid then { x with updatedAt := t2 } else x) } sid =
      some { s with updatedAt := t2 } ∧
    s.updatedAt < t2 := by
  have hs2 : σ.chatSessions.find? (fun x => decide (x.id = sid)) = some s := hsess
  have hid : s.id = sid := by
    have hp := List.find?_some hs2
    simpa using hp
  have hsmem : s ∈ σ.chatSessions := List.mem_of_find?_eq_some hs2
  have hsessEx : ∃ x ∈ σ.chatSessions, x.id = sid := ⟨s, hsmem, hid⟩
  have ha1 := addChatMessage_success σ uid sid Role.user (strTrim input) t1 hfreshU hsessEx
  have hfresh2 : ∀ m ∈ σ.chatMessages ++
      [{ id := uid, sessionId := sid, role := Role.user,
         message := strTrim input, createdAt := t1 }], m.id ≠ aid := by
    intro m hm
    rcases List.mem_append.mp hm with h | h
    · exact hfreshA m h
    · have hm2 : m = { id := uid, sessionId := sid, role := Role.user,
                       message := strTrim input, createdAt := t1 } := by simpa using h
      rw [hm2]
      exact hUA
  have hsess2 : ∃ x ∈ σ.chatSessions.map
      (fun x => if x.id = sid then { x with updatedAt := t1 } else x), x.id = sid := by
    refine ⟨if s.id = sid then { s with updatedAt := t1 } else s,
      List.mem_map_of_mem _ hsmem, ?_⟩
    rw [if_pos hid]
    exact hid
  have ha2 := addChatMessage_success
    { σ with
      chatMessages := σ.chatMessages ++
        [{ id := uid, sessionId := sid, role := Role.user,
           message := strTrim input, createdAt := t1 }]
      chatSessions := σ.chatSessions.map
        (fun x => if x.id = sid then { x with updatedAt := t1 } else x) }
    aid sid Role.assistant ("오류: " ++ err) t2 hfresh2 hsess2
  have hmap : (σ.chatSessions.map
        (fun x => if x.id = sid then { x with updatedAt := t1 } else x)).map
          (fun x => if x.id = sid then { x with updatedAt := t2 } else x) =
      σ.chatSessions.map (fun x => if x.id = sid then { x with updatedAt := t2 } else x) := by
    rw [List.map_map]
    apply List.map_congr_left
    intro x _
    by_cases hx : x.id = sid <;> simp [hx]
  have hmain : handleSendMessage σ sid input
      { success := false, response := none, error := some err } uid aid t1 t2 =
      some { σ with
        chatMessages := σ.chatMessages ++
          [{ id := uid, sessionId := sid, role := Role.user,
             message := strTrim input, createdAt := t1 },
           { id := aid, sessionId := sid, role := Role.assistant,
             message := "오류: " ++ err, createdAt := t2 }]
        chatSessions := σ.chatSessions.map
          (fun x => if x.id = sid then { x with updatedAt := t2 } else x) } := by
    unfold handleSendMessage
    rw [if_neg hinput]
    simp only [ha1, errorTurnBody, if_neg herr, Bool.false_and, Bool.and_eq_true]
    simp only [ha2]
    simp [hmap]
  refine ⟨hmain, ?_, lt_of_lt_of_le ht1 ht2⟩
  unfold getChatSession
  have hfind : ((σ.chatSessions.map
      (fun x => if x.id = sid then { x with updatedAt := t2 } else x)).find?
        (fun x => decide (x.id = sid))) =
      (σ.chatSessions.find? (fun x => decide (x.id = sid))).map
        (fun x => if x.id = sid then { x with updatedAt := t2 } else x) :=
    find?_map_pred_inv (fun a => by by_cases hx : a.id = sid <;> simp [hx]) _
  rw [show ({ σ with
      chatMessages := σ.chatMessages ++
        [{ id := uid, sessionId := sid, role := Role.user,
           message := strTrim input, createdAt := t1 },
         { id := aid, sessionId := sid, role := Role.assistant,
           message := "오류: " ++ err, createdAt := t2 }]
      chatSessions := σ.chatSessions.map
        (fun x => if x.id = sid then { x with updatedAt := t2 } else x) } :
          DBState).chatSessions =
      σ.chatSessions.map (fun x => if x.id = sid then { x with updatedAt := t2 } else x)
    from rfl, hfind, hs2]
  simp [hid]

/-- Witness for C8: a concrete failed turn on a fresh session appends the
trimmed user message and the error turn, and bumps `updatedAt` to 7. -/
theorem send_failure_appends_error_turn_witness :
    handleSendMessage c5State "s1" " 이게 뭐야? "
        { success := false, response := none, error := some "API 요청에 실패했습니다." }
        "m1" "m2" 6 7 =
      some { c5State with
        chatMessages := c5State.chatMessages ++
          [{ id := "m1", sessionId := "s1", role := Role.user,
             message := strTrim " 이게 뭐야? ", createdAt := 6 },
           { id := "m2", sessionId := "s1", role := Role.assistant,
             message := "오류: " ++ "API 요청에 실패했습니다.", createdAt := 7 }]
        chatSessions := c5State.chatSessions.map
          (fun x => if x.id = "s1" then { x with updatedAt := 7 } else x) } ∧
    getChatSession
      { c5State with
        chatMessages := c5State.chatMessages ++
          [{ id := "m1", sessionId := "s1", role := Role.user,
             message := strTrim " 이게 뭐야? ", createdAt := 6 },
           { id := "m2", sessionId := "s1", role := Role.assistant,
             message := "오류: " ++ "API 요청에 실패했습니다.", createdAt := 7 }]
        chatSessions := c5State.chatSessions.map
          (fun x => if x.id = "s1" then { x with updatedAt := 7 } else x) } "s1" =
      some { id := "s1", bookId := "b1", baseContext := "선택된 텍스트",
             createdAt := 5, updatedAt := 7 } ∧
    ({ id := "s1", bookId := "b1", baseContext := "선택된 텍스트",
       createdAt := 5, updatedAt := 5 } : ChatSession).updatedAt < 7 :=
  send_failure_appends_error_turn c5State "s1" " 이게 뭐야? "
    "API 요청에 실패했습니다." "m1" "m2" 6 7
    { id := "s1", bookId := "b1", baseContext := "선택된 텍스트",
      createdAt := 5, updatedAt := 5 }
    (by decide) (by decide) (by decide) (by decide) (by decide) (by decide)
    (by decide) (by decide)

/-- Appending a message whose timestamp is at least every stored timestamp
extends the session's read-back history by exactly that message at the end. -/
theorem getChatMessages_after_append
    (σ : DBState) (mid sid : String) (role : Role) (msg : String) (t1 : Nat)
    (σ1 : DBState) (m : ChatMessage)
    (ha : addChatMessage σ mid sid role msg t1 = some (σ1, m))
    (hsorted : List.Sorted messageAscOrder
      (σ.chatMessages.filter (fun x => decide (x.sessionId = sid))))
    (hle : ∀ x ∈ σ.chatMessages, x.createdAt ≤ t1) :
    getChatMessages σ1 sid = getChatMessages σ sid ++
      [{ id := mid, sessionId := sid, role := role, message := msg, createdAt := t1 }] := by
  have hmsgs := (addChatMessage_state σ σ1 m mid sid role msg t1 ha).2
  have hfil : σ1.chatMessages.filter (fun x => decide (x.sessionId = sid)) =
      σ.chatMessages.filter (fun x => decide (x.sessionId = sid)) ++
        [{ id := mid, sessionId := sid, role := role, message := msg, createdAt := t1 }] := by
    rw [hmsgs, List.filter_append]
    simp
  have hsorted2 : List.Sorted messageAscOrder
      (σ.chatMessages.filter (fun x => decide (x.sessionId = sid)) ++
        [{ id := mid, sessionId := sid, role := role, message := msg, createdAt := t1 }]) := by
    rw [List.Sorted, List.pairwise_append]
    refine ⟨hsorted, List.pairwise_singleton _ _, ?_⟩
    intro a ha2 b hb
    have hb2 : b = { id := mid, sessionId := sid, role := role,
                     message := msg, createdAt := t1 } := by simpa using hb
    have ha3 : a ∈ σ.chatMessages := (List.mem_filter.mp ha2).1
    rw [hb2]
    exact hle a ha3
  unfold getChatMessages
  rw [hfil, hsorted2.insertionSort_eq, hsorted.insertionSort_eq]

/-- C10: in the end-to-end send flow the user's new message is persisted
before the handler re-reads history, so the history handed to the gateway is
never empty, the first-turn anchor-injection branch is never taken, and the
assembled `contents` end with two consecutive `user` entries both equal to
the trimmed new user text. -/
theorem send_flow_nonempty_history_duplicate_user
    (σ : DBState) (sid input uid : String) (t1 : Nat) (s : ChatSession)
    (hsess : getChatSession σ sid = some s)
    (hctx : ¬ (s.baseContext = "" ∨ strTrim s.baseContext = ""))
    (hinput : ¬ strTrim input = "")
    (hfresh : ∀ m ∈ σ.chatMessages, m.id ≠ uid)
    (hsorted : List.Sorted messageAscOrder
      (σ.chatMessages.filter (fun x => decide (x.sessionId = sid))))
    (hle : ∀ x ∈ σ.chatMessages, x.createdAt ≤ t1) :
    sendFlowContents σ sid input uid t1 =
      some ((getChatMessages σ sid).map
          (fun m => { role := roleToGemini m.role, text := m.message }) ++
        [{ role := "user", text := strTrim input },
         { role := "user", text := strTrim input }]) ∧
    ((getChatMessages σ sid).map (fun m => (m.role, m.message)) ++
        [(Role.user, strTrim input)]).length ≠ 0 ∧
    selectedPrompt s.baseContext (strTrim input)
        ((getChatMessages σ sid).map (fun m => (m.role, m.message)) ++
          [(Role.user, strTrim input)]) = strTrim input := by
  have hs2 : σ.chatSessions.find? (fun x => decide (x.id = sid)) = some s := hsess
  have hid : s.id = sid := by
    have hp := List.find?_some hs2
    simpa using hp
  have hsessEx : ∃ x ∈ σ.chatSessions, x.id = sid :=
    ⟨s, List.mem_of_find?_eq_some hs2, hid⟩
  have ha1 := addChatMessage_success σ uid sid Role.user (strTrim input) t1 hfresh hsessEx
  have hget1 : getChatSession
      { σ with
        chatMessages := σ.chatMessages ++
          [{ id := uid, sessionId := sid, role := Role.user,
             message := strTrim input, createdAt := t1 }]
        chatSessions := σ.chatSessions.map
          (fun x => if x.id = sid then { x with updatedAt := t1 } else x) } sid =
      some { s with updatedAt := t1 } := by
    unfold getChatSession
    have hfind := find?_map_pred_inv
      (f := fun x : ChatSession => if x.id = sid then { x with updatedAt := t1 } else x)
      (p := fun x : ChatSession => decide (x.id = sid))
      (fun a => by by_cases hx : a.id = sid <;> simp [hx]) σ.chatSessions
    rw [show ({ σ with
        chatMessages := σ.chatMessages ++
          [{ id := uid, sessionId := sid, role := Role.user,
             message := strTrim input, createdAt := t1 }]
        chatSessions := σ.chatSessions.map
          (fun x => if x.id = sid then { x with updatedAt := t1 } else x) } :
            DBState).chatSessions =
        σ.chatSessions.map (fun x => if x.id = sid then { x with updatedAt := t1 } else x)
      from rfl, hfind, hs2]
    simp [hid]
  have hhist := getChatMessages_after_append σ uid sid Role.user (strTrim input) t1
    _ _ ha1 hsorted hle
  refine ⟨?_, by simp, by simp [selectedPrompt]⟩
  unfold sendFlowContents
  rw [if_neg hinput]
  simp only [ha1]
  unfold callGeminiHandlerContents
  simp only [hget1]
  rw [if_neg hctx]
  rw [hhist]
  unfold geminiContents
  simp [selectedPrompt, roleToGemini, List.map_append, List.map_map]
  rfl

/-- Witness for C10: on a fresh session with no stored messages, the first
send still reaches the gateway with a one-element history, and the assembled
contents are the two identical `user` entries. -/
theorem send_flow_nonempty_history_duplicate_user_witness :
    sendFlowContents c5State "s1" "질문입니다" "m1" 6 =
      some ((getChatMessages c5State "s1").map
          (fun m => { role := roleToGemini m.role, text := m.message }) ++
        [{ role := "user", text := strTrim "질문입니다" },
         { role := "user", text := strTrim "질문입니다" }]) ∧
    ((getChatMessages c5State "s1").map (fun m => (m.role, m.message)) ++
        [(Role.user, strTrim "질문입니다")]).length ≠ 0 ∧
    selectedPrompt "선택된 텍스트" (strTrim "질문입니다")
        ((getChatMessages c5State "s1").map (fun m => (m.role, m.message)) ++
          [(Role.user, strTrim "질문입니다")]) = strTrim "질문입니다" :=
  send_flow_nonempty_history_duplicate_user c5State "s1" "질문입니다" "m1" 6
    { id := "s1", bookId := "b1", baseContext := "선택된 텍스트",
      createdAt := 5, updatedAt := 5 }
    (by decide) (by decide) (by decide) (by decide) (by decide) (by decide)

/-- Witness for C6 at the spec's own first-turn scenario values. -/
theorem first_turn_single_anchor_entry_witness :
    geminiContents "Bergson describes natural science as a partial view of becoming."
        "이게 무슨 의미야?" [] =
      [{ role := "user",
         text := buildPrompt
           "Bergson describes natural science as a partial view of becoming."
           "이게 무슨 의미야?" }] ∧
    buildPrompt "Bergson describes natural science as a partial view of becoming."
        "이게 무슨 의미야?" =
      promptIntro ++ ("Bergson describes natural science as a partial view of becoming." ++
        (promptQuestionSep ++ ("이게 무슨 의미야?" ++ promptOutro))) ∧
    (∃ l r : String,
      buildPrompt "Bergson describes natural science as a partial view of becoming."
          "이게 무슨 의미야?" =
        l ++ ("Bergson describes natural science as a partial view of becoming." ++ r)) ∧
    (∃ l r : String,
      buildPrompt "Bergson describes natural science as a partial view of becoming."
          "이게 무슨 의미야?" =
        l ++ ("이게 무슨 의미야?" ++ r)) :=
  first_turn_single_anchor_entry
    "Bergson describes natural science as a partial view of becoming." "이게 무슨 의미야?"
